import Mathlib

/-!
Verification of the LibreCodeInterpreter orchestrator against its
specification.  The Python sources are shallowly embedded as Lean
definitions: configuration objects become structures, pure methods become
functions, and the one logging side effect we reason about is exposed as a
boolean condition.  Machine integers are modelled as `Int` (Python integers
are unbounded).  `None`-able strings are `Option String`, with Python
truthiness (`None` and `""` are falsy) made explicit.
-/

namespace LibreCodeInterpreter

/-- Python truthiness of an optional string: `None` and the empty string are
falsy, every other string is truthy.  Used wherever the source writes
`if self.field:` on a `str | None` field. -/
def optStrTruthy : Option String → Bool
  | none => false
  | some s => !(s == "")

/-- Characters removed by Python's default `str.strip()`.  Python strips the
full Unicode whitespace class; we model the ASCII subset, which covers the
configuration values concerned (passwords and `host:port` lists). -/
def isPyStripWhitespace (c : Char) : Bool :=
  c == ' ' || c == '\t' || c == '\n' || c == '\r' || c == '\x0b' || c == '\x0c'

/-- Python's `s.strip()` with the default whitespace set: drop leading and
trailing whitespace characters. -/
def pyStrip (s : String) : String :=
  ⟨(((s.toList.dropWhile isPyStripWhitespace).reverse.dropWhile
      isPyStripWhitespace).reverse)⟩

/-! ## Embedding of `src/config/redis.py` -/

/-- The two `ssl` module certificate-requirement constants that
`RedisConfig.get_tls_kwargs` can emit. -/
inductive SslCertReqs
  | certNone
  | certRequired
deriving DecidableEq, Repr

/-- `RedisConfig` (src/config/redis.py).  Field defaults mirror the pydantic
`Field(default=...)` declarations.  Fields irrelevant to verified behaviour
(`max_connections`, socket timeouts) carry their source defaults as well.
The source spells the key-namespace field `key_prefix`; it is written
`keyPrefix` here. -/
structure RedisConfig where
  mode : String := "standalone"
  host : String := "localhost"
  port : Int := 6379
  password : Option String := none
  db : Int := 0
  url : Option String := none
  max_connections : Int := 20
  socket_timeout : Int := 5
  socket_connect_timeout : Int := 5
  cluster_nodes : Option String := none
  sentinel_nodes : Option String := none
  sentinel_master : String := "mymaster"
  sentinel_password : Option String := none
  keyPrefix : String := ""
  tls_enabled : Bool := false
  tls_cert_file : Option String := none
  tls_key_file : Option String := none
  tls_ca_cert_file : Option String := none
  tls_insecure : Bool := false
  tls_check_hostname : Bool := false
deriving DecidableEq, Repr

/-- The `_empty_string_to_none` pydantic validator on `password` and
`sentinel_password`: a string that strips to empty becomes `None`; anything
else passes through. -/
def empty_string_to_none : Option String → Option String
  | none => none
  | some s => if pyStrip s == "" then none else some s

/-- The `_empty_nodes_to_none` pydantic validator on `cluster_nodes` and
`sentinel_nodes`: identical normalisation, declared separately in the
source. -/
def empty_nodes_to_none : Option String → Option String
  | none => none
  | some s => if pyStrip s == "" then none else some s

/-- `RedisConfig.get_url`: honour an explicit (truthy) `url`, otherwise build
`scheme://[:password@]host:port/db` with `rediss` when TLS is enabled. -/
def RedisConfig.get_url (cfg : RedisConfig) : String :=
  if optStrTruthy cfg.url then cfg.url.getD ""
  else
    let scheme := if cfg.tls_enabled then "rediss" else "redis"
    let password_part :=
      if optStrTruthy cfg.password then ":" ++ cfg.password.getD "" ++ "@" else ""
    scheme ++ "://" ++ password_part ++ cfg.host ++ ":" ++ toString cfg.port
      ++ "/" ++ toString cfg.db

/-- The keyword-argument dictionary produced by
`RedisConfig.get_tls_kwargs`; an absent key is `none`.  The empty
dictionary `{}` has every field `none`. -/
structure TlsKwargs where
  ssl : Option Bool := none
  ssl_cert_reqs : Option SslCertReqs := none
  ssl_check_hostname : Option Bool := none
  ssl_ca_certs : Option String := none
  ssl_certfile : Option String := none
  ssl_keyfile : Option String := none
deriving DecidableEq, Repr

/-- `RedisConfig.get_tls_kwargs`: empty when TLS is disabled; otherwise
`ssl=True`, certificate requirements and hostname checking chosen by
`tls_insecure` / `tls_check_hostname`, and the three optional file paths
added when truthy. -/
def RedisConfig.get_tls_kwargs (cfg : RedisConfig) : TlsKwargs :=
  if !cfg.tls_enabled then {}
  else
    let k : TlsKwargs := { ssl := some true }
    let k :=
      if cfg.tls_insecure then
        { k with ssl_cert_reqs := some SslCertReqs.certNone
                 ssl_check_hostname := some false }
      else
        { k with ssl_cert_reqs := some SslCertReqs.certRequired
                 ssl_check_hostname := some cfg.tls_check_hostname }
    let k :=
      if optStrTruthy cfg.tls_ca_cert_file then
        { k with ssl_ca_certs := cfg.tls_ca_cert_file } else k
    let k :=
      if optStrTruthy cfg.tls_cert_file then
        { k with ssl_certfile := cfg.tls_cert_file } else k
    if optStrTruthy cfg.tls_key_file then
      { k with ssl_keyfile := cfg.tls_key_file } else k

/-! ## Embedding of `src/core/pool.py` (key namespacing) -/

/-- `RedisPool.make_key`: prepend the configured key namespace to `key`;
return `key` unchanged when no namespace is configured.  The first argument
is the pool's `_key_prefix` (taken from `RedisConfig.keyPrefix`). -/
def RedisPool.make_key (pre key : String) : String :=
  if pre ≠ "" then pre ++ key else key

/-! ## Embedding of `src/services/kubernetes/models.py` -/

/-- `PodStatus` enumeration, including the pool-specific states. -/
inductive PodStatus
  | pending
  | running
  | succeeded
  | failed
  | unknown
  | warm
  | specializing
  | executing
deriving DecidableEq, BEq, Repr

/-- `PodHandle` dataclass.  `created_at` (a timestamp) is modelled as an
integer epoch value; the Python keyword-clashing field `namespace` is written
`namespace_`. -/
structure PodHandle where
  name : String
  namespace_ : String
  uid : String
  language : String
  session_id : Option String := none
  status : PodStatus := PodStatus.pending
  pod_ip : Option String := none
  sidecar_port : Int := 8080
  created_at : Int := 0
  labels : List (String × String) := []
deriving DecidableEq, Repr

/-- Dynamically-typed values a `PodHandle` may be compared against in
`PodHandle.__eq__`, which receives an arbitrary Python object. -/
inductive PyValue
  | podHandle (h : PodHandle)
  | str (s : String)
  | int (n : Int)
  | noneVal
deriving DecidableEq, Repr

/-- Whether a `PyValue` passes the `isinstance(other, PodHandle)` check. -/
def PyValue.isPodHandle : PyValue → Bool
  | PyValue.podHandle _ => true
  | _ => false

/-- `PodHandle.__eq__`: equal to another `PodHandle` exactly when the `uid`
fields agree; `False` against any non-`PodHandle` value. -/
def PodHandle.eqPy (self : PodHandle) : PyValue → Bool
  | PyValue.podHandle other => self.uid == other.uid
  | _ => false

/-- `PodHandle.__hash__` is `hash(self.uid)`.  The Python builtin string hash
is an unspecified function of the string, so it is taken as a parameter. -/
def PodHandle.hashPy (hashStr : String → Int) (self : PodHandle) : Int :=
  hashStr self.uid

/-- `PoolConfig` dataclass (fields not used by any verified property are
elided: image names, resource strings, sandbox knobs). -/
structure PoolConfig where
  language : String
  image : String
  pool_size : Int := 0
  execution_mode : String := "agent"
deriving DecidableEq, Repr

/-- `PoolConfig.uses_pool`: whether this language uses a warm pod pool. -/
def PoolConfig.uses_pool (cfg : PoolConfig) : Bool :=
  cfg.pool_size > 0

/-- `PooledPod` dataclass: a pod in the warm pool. -/
structure PooledPod where
  handle : PodHandle
  language : String
  acquired : Bool := false
  acquired_at : Option Int := none
  created_at : Int := 0
  health_check_failures : Int := 0
deriving DecidableEq, Repr

/-- `PooledPod.is_available`: the pod can be acquired. -/
def PooledPod.is_available (p : PooledPod) : Bool :=
  !p.acquired && p.handle.status == PodStatus.warm

/-! ## Embedding of `src/services/kubernetes/client.py` (pod manifests)

Only the security-relevant shape of the generated `V1Pod` is modelled:
container security contexts, the container list (main, sidecar, optional
agent-init), process-namespace sharing and the runtime class.  Probes,
resource requirements, environment variables, volumes and metadata do not
bear on any verified property and are elided. -/

/-- `V1Capabilities`: capability names added and dropped. -/
structure V1Capabilities where
  add : List String := []
  drop : List String := []
deriving DecidableEq, Repr

/-- `V1SecurityContext`, restricted to the fields the manifest builder
sets. -/
structure V1SecurityContext where
  run_as_user : Int
  run_as_group : Int
  run_as_non_root : Bool
  allow_privilege_escalation : Bool
  capabilities : V1Capabilities
deriving DecidableEq, Repr

/-- A container of the generated pod: its name, image, optional argument
override and security context. -/
structure V1Container where
  name : String
  image : String
  args : Option (List String) := none
  security_context : V1SecurityContext
deriving DecidableEq, Repr

/-- The security-relevant part of the generated `V1PodSpec`. -/
structure V1PodSpec where
  init_containers : Option (List V1Container)
  containers : List V1Container
  share_process_namespace : Bool
  runtime_class_name : Option String
deriving DecidableEq, Repr

/-- Arguments of `create_pod_manifest`, with the source's defaults.
Arguments that only feed elided manifest fields (labels, resource strings,
ports, node selectors, tolerations, pull secrets) are omitted. -/
structure PodManifestArgs where
  name : String
  namespace_ : String
  main_image : String
  sidecar_image : String
  language : String
  run_as_user : Int := 65532
  execution_mode : String := "agent"
  gke_sandbox_enabled : Bool := false
  runtime_class_name : String := "gvisor"
deriving DecidableEq, Repr

/-- The condition under which `create_pod_manifest` emits the
`logger.warning` about GKE Sandbox being combined with nsenter mode:
`gke_sandbox_enabled and not use_agent`. -/
def gvisor_nsenter_warning (a : PodManifestArgs) : Bool :=
  a.gke_sandbox_enabled && !(a.execution_mode == "agent")

/-- `create_pod_manifest`: build the (security-relevant part of the) pod
manifest.  In agent mode all three containers get the minimal security
context and the agent binary is run from the shared volume; in nsenter mode
the sidecar gains `SYS_PTRACE`, `SYS_ADMIN`, `SYS_CHROOT` with privilege
escalation allowed, there is no init container and the process namespace is
shared. -/
def create_pod_manifest (a : PodManifestArgs) : V1PodSpec :=
  let use_agent := a.execution_mode == "agent"
  let main_security_context : V1SecurityContext :=
    { run_as_user := a.run_as_user
      run_as_group := a.run_as_user
      run_as_non_root := true
      allow_privilege_escalation := false
      capabilities := { drop := ["ALL"] } }
  let sidecar_security_context : V1SecurityContext :=
    if use_agent then
      { run_as_user := a.run_as_user
        run_as_group := a.run_as_user
        run_as_non_root := true
        allow_privilege_escalation := false
        capabilities := { drop := ["ALL"] } }
    else
      { run_as_user := a.run_as_user
        run_as_group := a.run_as_user
        run_as_non_root := true
        allow_privilege_escalation := true
        capabilities := { add := ["SYS_PTRACE", "SYS_ADMIN", "SYS_CHROOT"]
                          drop := ["ALL"] } }
  let main_container : V1Container :=
    { name := "main"
      image := a.main_image
      args := if use_agent then some ["/mnt/data/.executor-agent"] else none
      security_context := main_security_context }
  let sidecar_container : V1Container :=
    { name := "sidecar"
      image := a.sidecar_image
      security_context := sidecar_security_context }
  let init_containers : Option (List V1Container) :=
    if use_agent then
      some [{ name := "agent-init"
              image := a.sidecar_image
              security_context :=
                { run_as_user := a.run_as_user
                  run_as_group := a.run_as_user
                  run_as_non_root := true
                  allow_privilege_escalation := false
                  capabilities := { drop := ["ALL"] } } }]
    else none
  { init_containers := init_containers
    containers := [main_container, sidecar_container]
    share_process_namespace := !use_agent
    runtime_class_name :=
      if a.gke_sandbox_enabled then some a.runtime_class_name else none }

/-- All containers of a generated pod spec: regular containers plus any init
containers. -/
def V1PodSpec.allContainers (s : V1PodSpec) : List V1Container :=
  s.containers ++ s.init_containers.getD []

/-! ## Session service and state service KV writes

`src/services/session.py` and `src/services/state.py` are not present in
the sources — only their unit tests
(`tests/unit/test_cluster_pipeline_compat.py`) and the abstract interface
(`src/services/interfaces.py`) are.  Their multi-key KV writes are modelled
here from the specification (§4.7, §4.8). -/

/-- A KV command queued on a pipeline. -/
inductive KVCommand
  | hset (key : String) (fields : List (String × String))
  | sadd (key : String) (member : String)
  | srem (key : String) (member : String)
  | del (key : String)
  | setex (key : String) (ttl : Int) (value : String)
  | expire (key : String) (ttl : Int)
deriving DecidableEq, Repr

/-- A KV pipeline: the batch of queued commands together with the
`transaction` flag it was created with (`client.pipeline(transaction=...)`). -/
structure KVPipeline where
  transaction : Bool
  commands : List KVCommand
deriving DecidableEq, Repr

/-- Modelled from the spec: `SessionService.create_session`
(src/services/session.py, absent from the sources).  Per §4.7 it writes the
`session:{id}` hash, adds the id to `sessions:index` and (when an entity id
is given) to `sessions:entity:{entity-id}`, refreshing expiry on every key,
all through one pipeline created with `transaction=False`. -/
def SessionService.create_session (sid : String) (entity_id : Option String)
    (fields : List (String × String)) (ttl : Int) : KVPipeline :=
  { transaction := false
    commands :=
      [KVCommand.hset ("session:" ++ sid) fields,
       KVCommand.expire ("session:" ++ sid) ttl,
       KVCommand.sadd "sessions:index" sid,
       KVCommand.expire "sessions:index" ttl] ++
      (match entity_id with
       | some e =>
         [KVCommand.sadd ("sessions:entity:" ++ e) sid,
          KVCommand.expire ("sessions:entity:" ++ e) ttl]
       | none => []) }

/-- Modelled from the spec: `SessionService.delete_session`
(src/services/session.py, absent from the sources).  Per §4.7 it deletes the
`session:{id}` hash and removes the id from `sessions:index` and, when the
session carries an entity id, from `sessions:entity:{entity-id}`, through
one pipeline created with `transaction=False`. -/
def SessionService.delete_session (sid : String) (entity_id : Option String) :
    KVPipeline :=
  { transaction := false
    commands :=
      [KVCommand.del ("session:" ++ sid),
       KVCommand.srem "sessions:index" sid] ++
      (match entity_id with
       | some e => [KVCommand.srem ("sessions:entity:" ++ e) sid]
       | none => []) }

/-- Modelled from the spec: `StateService.save_state`
(src/services/state.py, absent from the sources).  Per §4.8 it writes the
hot-tier value `state:{id}` with a TTL and updates the secondary
`state:info:{id}` hash, through one pipeline created with
`transaction=False`. -/
def StateService.save_state (sid : String) (stateBytes : String)
    (info : List (String × String)) (ttl : Int) : KVPipeline :=
  { transaction := false
    commands :=
      [KVCommand.setex ("state:" ++ sid) ttl stateBytes,
       KVCommand.hset ("state:info:" ++ sid) info,
       KVCommand.expire ("state:info:" ++ sid) ttl] }

/-! ## Concrete instances used to instantiate the theorems -/

/-- A TLS configuration with the insecure flag set. -/
def insecureTlsCfg : RedisConfig :=
  { tls_enabled := true, tls_insecure := true }

/-- A TLS configuration with default (secure) verification. -/
def secureTlsCfg : RedisConfig :=
  { tls_enabled := true, tls_ca_cert_file := some "/certs/ca.crt" }

/-- A configuration carrying an explicit URL together with TLS and password
settings that `get_url` must ignore. -/
def explicitUrlCfg : RedisConfig :=
  { url := some "redis://explicit-host:7000/2", tls_enabled := true,
    password := some "secret", host := "other", port := 7001, db := 3 }

/-- A URL-less configuration with TLS and a password, exercising the built
URL. -/
def builtUrlCfg : RedisConfig :=
  { tls_enabled := true, password := some "pw" }

/-- Manifest arguments for the default agent execution mode. -/
def agentArgs : PodManifestArgs :=
  { name := "exec-pod-1", namespace_ := "code-exec",
    main_image := "python:3.12", sidecar_image := "sidecar-agent:latest",
    language := "python" }

/-- Manifest arguments for the legacy nsenter execution mode with the
sandbox runtime flag also set. -/
def nsenterArgs : PodManifestArgs :=
  { name := "exec-pod-2", namespace_ := "code-exec",
    main_image := "python:3.12", sidecar_image := "sidecar-nsenter:latest",
    language := "python", execution_mode := "nsenter",
    gke_sandbox_enabled := true }

/-- A pool entry that is warm and unacquired. -/
def warmEntry : PooledPod :=
  { handle := { name := "pod-a", namespace_ := "code-exec", uid := "uid-a",
                language := "python", status := PodStatus.warm }
    language := "python" }

/-- Two pod handles with the same uid but otherwise different fields. -/
def handleA : PodHandle :=
  { name := "pod-a", namespace_ := "code-exec", uid := "uid-1",
    language := "python", status := PodStatus.warm }

/-- Same uid as `handleA`, every other field different. -/
def handleB : PodHandle :=
  { name := "pod-b", namespace_ := "other-ns", uid := "uid-1",
    language := "go", status := PodStatus.executing,
    session_id := some "sess-9" }

/-- The security posture required of every container in an agent-mode pod:
non-root, no privilege escalation, all capabilities dropped, none added. -/
def V1SecurityContext.lockedDown (sc : V1SecurityContext) : Prop :=
  sc.run_as_non_root = true ∧
  sc.allow_privilege_escalation = false ∧
  sc.capabilities.drop = ["ALL"] ∧
  sc.capabilities.add = []

/-! ## Helper lemmas -/

/-- `pyStrip` returns the empty string exactly when every character of the
input is (Python-strippable) whitespace; in particular on the empty
string. -/
theorem pyStrip_eq_empty_iff (s : String) :
    pyStrip s = "" ↔ ∀ c ∈ s.toList, isPyStripWhitespace c := by
  unfold pyStrip
  constructor
  · intro h c hc
    have hdata :
        (((s.toList.dropWhile isPyStripWhitespace).reverse.dropWhile
            isPyStripWhitespace).reverse) = [] := congrArg String.data h
    rw [List.reverse_eq_nil_iff, List.dropWhile_eq_nil_iff] at hdata
    rw [← List.takeWhile_append_dropWhile (p := isPyStripWhitespace)
          (l := s.toList)] at hc
    rcases List.mem_append.mp hc with h1 | h2
    · exact List.mem_takeWhile_imp h1
    · exact hdata c (List.mem_reverse.mpr h2)
  · intro h
    have h1 : s.toList.dropWhile isPyStripWhitespace = [] :=
      List.dropWhile_eq_nil_iff.mpr h
    rw [h1]
    rfl

/-- Boolean equality on `PodStatus` agrees with propositional equality. -/
theorem podStatus_beq_iff (a b : PodStatus) : (a == b) = true ↔ a = b := by
  cases a <;> cases b <;> decide

/-! ## Claim theorems -/

/-- C1: every multi-key KV write performed by the session service and the
state service (`create_session`, `delete_session`, `save_state`) issues its
batch through a pipeline created with `transaction=False`, so the batch is
ordered but carries no cross-key transactional semantics. -/
theorem session_state_writes_use_non_transactional_pipeline
    (sid stateBytes : String) (entity_id : Option String)
    (fields info : List (String × String)) (ttl : Int) :
    (SessionService.create_session sid entity_id fields ttl).transaction
        = false ∧
    (SessionService.delete_session sid entity_id).transaction = false ∧
    (StateService.save_state sid stateBytes info ttl).transaction = false :=
  ⟨rfl, rfl, rfl⟩

/-- C2: a pool entry is reported available if and only if its `acquired`
flag is false and its pod handle's status is `warm`; hence every entry
selectable for acquisition satisfies `!acquired ∧ status == warm`. -/
theorem pooled_pod_available_iff (p : PooledPod) :
    p.is_available = true ↔
      p.acquired = false ∧ p.handle.status = PodStatus.warm := by
  unfold PooledPod.is_available
  rw [Bool.and_eq_true, Bool.not_eq_true', podStatus_beq_iff]

/-- C2 witness: a warm, unacquired entry is available. -/
theorem pooled_pod_available_iff_witness : warmEntry.is_available = true :=
  (pooled_pod_available_iff warmEntry).mpr ⟨rfl, rfl⟩

/-- C4: the validators on the KV password, sentinel password, cluster node
list and sentinel node list map empty or whitespace-only strings to `None`
(unset) and pass every other value through unchanged. -/
theorem blank_config_values_treated_as_unset (s : String) :
    ((∀ c ∈ s.toList, isPyStripWhitespace c) →
        empty_string_to_none (some s) = none ∧
        empty_nodes_to_none (some s) = none) ∧
    ((¬ ∀ c ∈ s.toList, isPyStripWhitespace c) →
        empty_string_to_none (some s) = some s ∧
        empty_nodes_to_none (some s) = some s) ∧
    empty_string_to_none none = none ∧
    empty_nodes_to_none none = none := by
  refine ⟨fun hall => ?_, fun hnot => ?_, rfl, rfl⟩
  · have h : pyStrip s = "" := (pyStrip_eq_empty_iff s).mpr hall
    simp [empty_string_to_none, empty_nodes_to_none, h]
  · have h : pyStrip s ≠ "" := fun he => hnot ((pyStrip_eq_empty_iff s).mp he)
    simp [empty_string_to_none, empty_nodes_to_none, h]

/-- C4 witness: a whitespace-only password is normalised to `None`; a real
node list passes through unchanged. -/
theorem blank_config_values_treated_as_unset_witness :
    (empty_string_to_none (some "  ") = none ∧
        empty_nodes_to_none (some "  ") = none) ∧
    (empty_string_to_none (some "node1:6379,node2:6379")
          = some "node1:6379,node2:6379" ∧
        empty_nodes_to_none (some "node1:6379,node2:6379")
          = some "node1:6379,node2:6379") :=
  ⟨(blank_config_values_treated_as_unset "  ").1 (by decide),
   (blank_config_values_treated_as_unset "node1:6379,node2:6379").2.1
     (by decide)⟩

/-- C5: `make_key` returns the configured namespace followed by the key;
with an empty namespace the key is returned unchanged, and the key is never
otherwise altered. -/
theorem make_key_prepends_namespace (pre key : String) :
    RedisPool.make_key pre key = pre ++ key ∧
    (pre = "" → RedisPool.make_key pre key = key) := by
  unfold RedisPool.make_key
  by_cases h : pre = ""
  · subst h
    simp
  · simp [h]

/-- C5 witness: a concrete namespaced key, and an unprefixed key with the
empty namespace. -/
theorem make_key_prepends_namespace_witness :
    RedisPool.make_key "prod:" "session:42" = "prod:session:42" ∧
    RedisPool.make_key "" "session:42" = "session:42" :=
  ⟨(make_key_prepends_namespace "prod:" "session:42").1,
   (make_key_prepends_namespace "" "session:42").2 rfl⟩

/-- C6: a language uses the warm pool path exactly when its configured pool
size is strictly positive; pool size zero routes to the one-shot Job
path (`uses_pool = false`). -/
theorem uses_pool_iff_positive_pool_size (cfg : PoolConfig) :
    (cfg.uses_pool = true ↔ cfg.pool_size > 0) ∧
    (cfg.pool_size = 0 → cfg.uses_pool = false) := by
  constructor
  · simp [PoolConfig.uses_pool]
  · intro h
    simp [PoolConfig.uses_pool, h]

/-- C6 witness: a pool of size 2 uses the pool path; a pool of size 0 does
not. -/
theorem uses_pool_iff_positive_pool_size_witness :
    PoolConfig.uses_pool { language := "python", image := "py", pool_size := 2 }
        = true ∧
    PoolConfig.uses_pool { language := "rust", image := "rs", pool_size := 0 }
        = false :=
  ⟨(uses_pool_iff_positive_pool_size
      { language := "python", image := "py", pool_size := 2 }).1.mpr
      (by decide),
   (uses_pool_iff_positive_pool_size
      { language := "rust", image := "rs", pool_size := 0 }).2 rfl⟩

/-- C3 counterexample: with TLS enabled but `tls_insecure` set, the produced
settings carry `ssl_cert_reqs = CERT_NONE`, not `CERT_REQUIRED`, refuting
the claim that certificate-chain verification is required for every
TLS-enabled configuration. -/
theorem tls_kwargs_cert_required_counterexample :
    insecureTlsCfg.tls_enabled = true ∧
    ¬ (RedisConfig.get_tls_kwargs insecureTlsCfg).ssl_cert_reqs
        = some SslCertReqs.certRequired := by decide

/-- C3 (amended): with TLS enabled and `tls_insecure` unset, the settings
require certificate-chain verification and set hostname verification to the
`tls_check_hostname` flag, which defaults to false; with `tls_insecure` set,
verification is `CERT_NONE` and hostname checking off; with TLS disabled the
settings are empty. -/
theorem get_tls_kwargs_verification (cfg : RedisConfig) :
    (cfg.tls_enabled = false → cfg.get_tls_kwargs = {}) ∧
    (cfg.tls_enabled = true → cfg.tls_insecure = false →
        cfg.get_tls_kwargs.ssl_cert_reqs = some SslCertReqs.certRequired ∧
        cfg.get_tls_kwargs.ssl_check_hostname
          = some cfg.tls_check_hostname) ∧
    (cfg.tls_enabled = true → cfg.tls_insecure = true →
        cfg.get_tls_kwargs.ssl_cert_reqs = some SslCertReqs.certNone ∧
        cfg.get_tls_kwargs.ssl_check_hostname = some false) ∧
    RedisConfig.tls_check_hostname {} = false := by
  refine ⟨fun h => ?_, fun h hins => ?_, fun h hins => ?_, rfl⟩
  · simp [RedisConfig.get_tls_kwargs, h]
  · by_cases hca : optStrTruthy cfg.tls_ca_cert_file = true <;>
    by_cases hcert : optStrTruthy cfg.tls_cert_file = true <;>
    by_cases hkey : optStrTruthy cfg.tls_key_file = true <;>
      simp [RedisConfig.get_tls_kwargs, h, hins, hca, hcert, hkey]
  · by_cases hca : optStrTruthy cfg.tls_ca_cert_file = true <;>
    by_cases hcert : optStrTruthy cfg.tls_cert_file = true <;>
    by_cases hkey : optStrTruthy cfg.tls_key_file = true <;>
      simp [RedisConfig.get_tls_kwargs, h, hins, hca, hcert, hkey]

/-- C3 witness: the three regimes evaluated on concrete configurations. -/
theorem get_tls_kwargs_verification_witness :
    RedisConfig.get_tls_kwargs {} = {} ∧
    (RedisConfig.get_tls_kwargs secureTlsCfg).ssl_cert_reqs
        = some SslCertReqs.certRequired ∧
    (RedisConfig.get_tls_kwargs insecureTlsCfg).ssl_check_hostname
        = some false :=
  ⟨(get_tls_kwargs_verification {}).1 rfl,
   ((get_tls_kwargs_verification secureTlsCfg).2.1 rfl rfl).1,
   ((get_tls_kwargs_verification insecureTlsCfg).2.2.1 rfl rfl).2⟩

/-- C7: in agent execution mode every container of the generated pod (main,
sidecar and the agent-init container) runs non-root with privilege
escalation disabled, all capabilities dropped and none added, and the pod
does not share the process namespace. -/
theorem agent_mode_manifest_locked_down (a : PodManifestArgs)
    (h : a.execution_mode = "agent") :
    (∀ c ∈ (create_pod_manifest a).allContainers,
        c.security_context.lockedDown) ∧
    (create_pod_manifest a).share_process_namespace = false := by
  refine ⟨fun c hc => ?_, by simp [create_pod_manifest, h]⟩
  simp [create_pod_manifest, V1PodSpec.allContainers, h] at hc
  rcases hc with rfl | rfl | rfl <;> exact ⟨rfl, rfl, rfl, rfl⟩

/-- C7 witness: the agent-mode manifest for a concrete argument set. -/
theorem agent_mode_manifest_locked_down_witness :
    (∀ c ∈ (create_pod_manifest agentArgs).allContainers,
        c.security_context.lockedDown) ∧
    (create_pod_manifest agentArgs).share_process_namespace = false :=
  agent_mode_manifest_locked_down agentArgs rfl

/-- C8: in the legacy nsenter execution mode the sidecar container's
security context adds exactly `SYS_PTRACE`, `SYS_ADMIN`, `SYS_CHROOT` while
dropping all others and allowing privilege escalation; and combining the
sandbox runtime flag with legacy mode triggers the construction-time
warning. -/
theorem nsenter_mode_sidecar_capabilities (a : PodManifestArgs)
    (h : a.execution_mode = "nsenter") :
    (∀ c ∈ (create_pod_manifest a).containers, c.name = "sidecar" →
        c.security_context.capabilities.add
            = ["SYS_PTRACE", "SYS_ADMIN", "SYS_CHROOT"] ∧
        c.security_context.capabilities.drop = ["ALL"] ∧
        c.security_context.allow_privilege_escalation = true) ∧
    ((create_pod_manifest a).containers.any
        (fun c => c.name == "sidecar") = true) ∧
    (a.gke_sandbox_enabled = true → gvisor_nsenter_warning a = true) := by
  have hne : (a.execution_mode == "agent") = false := by
    rw [h]
    rfl
  refine ⟨fun c hc hname => ?_, ?_, fun hg => ?_⟩
  · simp [create_pod_manifest, hne] at hc
    rcases hc with rfl | rfl
    · simp at hname
    · exact ⟨rfl, rfl, rfl⟩
  · simp [create_pod_manifest, hne]
  · simp [gvisor_nsenter_warning, hg, hne]

/-- C8 witness: the nsenter manifest for concrete arguments with the
sandbox flag set. -/
theorem nsenter_mode_sidecar_capabilities_witness :
    (∀ c ∈ (create_pod_manifest nsenterArgs).containers,
        c.name = "sidecar" →
        c.security_context.capabilities.add
            = ["SYS_PTRACE", "SYS_ADMIN", "SYS_CHROOT"] ∧
        c.security_context.capabilities.drop = ["ALL"] ∧
        c.security_context.allow_privilege_escalation = true) ∧
    ((create_pod_manifest nsenterArgs).containers.any
        (fun c => c.name == "sidecar") = true) ∧
    gvisor_nsenter_warning nsenterArgs = true :=
  ⟨(nsenter_mode_sidecar_capabilities nsenterArgs rfl).1,
   (nsenter_mode_sidecar_capabilities nsenterArgs rfl).2.1,
   (nsenter_mode_sidecar_capabilities nsenterArgs rfl).2.2 rfl⟩

/-- C9: `get_url` returns an explicitly configured (non-empty) `url`
verbatim, unchanged by any values of `tls_enabled`, `host`, `password`,
`port` and `db`; only with no explicit url does it build a URL whose scheme
is `rediss` exactly when TLS is enabled, embedding the password component
only when a password is set (truthy). -/
theorem get_url_honours_explicit_url (cfg : RedisConfig) :
    (∀ u, cfg.url = some u → u ≠ "" → cfg.get_url = u) ∧
    (∀ u, cfg.url = some u → u ≠ "" → ∀ b hst pw pt d,
        RedisConfig.get_url
          { cfg with tls_enabled := b, host := hst, password := pw,
                     port := pt, db := d } = u) ∧
    (cfg.url = none →
        cfg.get_url =
          (if cfg.tls_enabled then "rediss" else "redis") ++ "://" ++
          (if optStrTruthy cfg.password then
              ":" ++ cfg.password.getD "" ++ "@" else "") ++
          cfg.host ++ ":" ++ toString cfg.port ++ "/" ++ toString cfg.db) := by
  refine ⟨fun u hu hne => ?_, fun u hu hne b hst pw pt d => ?_,
    fun hnone => ?_⟩
  · have ht : optStrTruthy (some u) = true := by
      simpa [optStrTruthy] using hne
    simp [RedisConfig.get_url, hu, ht]
  · have ht : optStrTruthy (some u) = true := by
      simpa [optStrTruthy] using hne
    simp [RedisConfig.get_url, hu, ht]
  · simp [RedisConfig.get_url, hnone, optStrTruthy]

/-- C9 witness: an explicit url wins even with TLS and password configured;
without one, the built URL uses the `rediss` scheme and embeds the
password. -/
theorem get_url_honours_explicit_url_witness :
    RedisConfig.get_url explicitUrlCfg = "redis://explicit-host:7000/2" ∧
    RedisConfig.get_url builtUrlCfg = "rediss://:pw@localhost:6379/0" := by
  constructor
  · exact (get_url_honours_explicit_url explicitUrlCfg).1
      "redis://explicit-host:7000/2" rfl (by decide)
  · rw [(get_url_honours_explicit_url builtUrlCfg).2.2 rfl]
    decide

/-- C10: `PodHandle` equality is determined solely by `uid` — two handles
compare equal exactly when their uids agree, a handle never equals a
non-`PodHandle` value, and equal handles have equal hash (for any hash
function of the uid). -/
theorem pod_handle_identity_by_uid (p q : PodHandle) (v : PyValue)
    (hashStr : String → Int) :
    (p.eqPy (PyValue.podHandle q) = true ↔ p.uid = q.uid) ∧
    (v.isPodHandle = false → p.eqPy v = false) ∧
    (p.eqPy (PyValue.podHandle q) = true →
        p.hashPy hashStr = q.hashPy hashStr) := by
  have hiff : p.eqPy (PyValue.podHandle q) = true ↔ p.uid = q.uid := by
    simp [PodHandle.eqPy]
  refine ⟨hiff, fun hv => ?_, fun he => ?_⟩
  · cases v with
    | podHandle h => simp [PyValue.isPodHandle] at hv
    | str s => rfl
    | int n => rfl
    | noneVal => rfl
  · unfold PodHandle.hashPy
    rw [hiff.mp he]

/-- C10 witness: two handles differing in every field but `uid` compare
equal and hash alike; a handle never equals a string. -/
theorem pod_handle_identity_by_uid_witness :
    handleA.eqPy (PyValue.podHandle handleB) = true ∧
    handleA.eqPy (PyValue.str "uid-1") = false ∧
    handleA.hashPy (fun s => (s.length : Int))
      = handleB.hashPy (fun s => (s.length : Int)) := by
  have h := pod_handle_identity_by_uid handleA handleB (PyValue.str "uid-1")
    (fun s => (s.length : Int))
  exact ⟨h.1.mpr rfl, h.2.1 rfl, h.2.2 (h.1.mpr rfl)⟩

end LibreCodeInterpreter
